import Mathlib

/-!
Verification of the LN-Remote micromanipulator driver (Luigs & Neumann SM10).

This file gives a shallow embedding of the driver's protocol core:

* `crc16` — the checksum in `devices.py` (`LNSM10.crc16`);
* `calculateCRC` — the checksum in `manipulator.py`
  (`LuigsAndNeumannSM10.calculateCRC`);
* `sendCommandSerial` — the serial branch of `LNSM10.sendCommand`, with the
  transport modelled as an oracle giving the bytes available to each
  successive read, and a trace recording every transport side effect;
* `sendCommandDummy` — the dummy-connection branch of `LNSM10.sendCommand`;
* `calculateGroupAddress` / `getGroupAddress` — the two group-address
  encoders;
* the catalog operations (`stepAxis`, `setStepResolution`,
  `setMovementVelocity`, `storePosition`, `returnAxisHome`) that the
  specification's testable properties refer to.

Machine integers are modelled as `Nat` with explicit `% 2 ^ w` / `&&& mask`
where the Python code masks (Python integers are unbounded, so unmasked
intermediate values are modelled as unmasked `Nat`s).  Python exceptions are
modelled with the `Except` monad over `PyErr`.
-/

/-- Python exceptions that the modelled driver code can raise. -/
inductive PyErr where
  | indexError
  | typeError
  | serialException
  | assertionError
  | unboundLocalError
deriving DecidableEq, Repr

/-- One observable transport side effect of the driver: a frame written to
the serial port, a read request (with the bytes it returned), or a buffer
clear (`reset_input_buffer` / `reset_output_buffer`). -/
inductive IOEvent where
  | write (frame : List Nat)
  | read (requested : Nat) (returned : List Nat)
  | clearBuffer
deriving DecidableEq, Repr

/-- `LNSM10.crc16` (devices.py lines 1486-1511): starts from `0xFFFF` and,
for each payload byte, shifts the running value left by 8, XORs in the
polynomial `0x1021` and masks to 16 bits — the loop body never reads the
byte itself.  `ctypes.c_ubyte(x).value` is `x % 256`. -/
def crc16 (data_bytes : List Nat) : Nat × Nat :=
  let crc := data_bytes.foldl (fun c _ => (c <<< 8 ^^^ 0x1021) &&& 0xFFFF) 0xFFFF
  (crc >>> 8 % 256, crc % 256)

/-- One XOR-conditional left shift of `LuigsAndNeumannSM10.calculateCRC`
(manipulator.py lines 1157-1161).  The Python running value is an unbounded
int and is never masked, so no mask appears here either. -/
def crcShiftStep (crc : Nat) : Nat :=
  if crc &&& 0x8000 ≠ 0 then crc <<< 1 ^^^ 0x1021 else crc <<< 1

/-- One iteration of the `while length > 0` loop of `calculateCRC`: XOR the
byte into (what would be) the high byte, then 8 conditional shifts. -/
def crcByteStep (c b : Nat) : Nat := crcShiftStep^[8] (c ^^^ b <<< 8)

/-- The `while length > 0` loop of `calculateCRC`, folded over the bytes it
visits. -/
def calculateCRCAux (crc : Nat) (bytes : List Nat) : Nat :=
  bytes.foldl crcByteStep crc

/-- `LuigsAndNeumannSM10.calculateCRC` (manipulator.py lines 1146-1169):
running value starts at 0; the loop visits `data_bytes[0] .. data_bytes[length-1]`
(modelled as `data_bytes.take length`; every in-repository call passes
`length = len(data_bytes)`); the result is the `c_ubyte` truncation of the
high and low byte of the final (unmasked) running value. -/
def calculateCRC (data_bytes : List Nat) (length : Nat) : Nat × Nat :=
  let crc := calculateCRCAux 0 (data_bytes.take length)
  (crc >>> 8 % 256, crc % 256)

/-- Modelled from the spec (§4.1): one XOR-conditional left shift of the
reference CRC-16/CCITT, on a running value kept to 16 bits. -/
def crcRefShiftStep (crc : Nat) : Nat :=
  if crc &&& 0x8000 ≠ 0 then (crc <<< 1 ^^^ 0x1021) % 2 ^ 16 else crc <<< 1 % 2 ^ 16

/-- Modelled from the spec (§4.1): reference per-byte step — XOR the byte
into the high byte of the 16-bit running value, then 8 shift steps. -/
def crcRefByteStep (c b : Nat) : Nat := crcRefShiftStep^[8] ((c ^^^ b <<< 8) % 2 ^ 16)

/-- Modelled from the spec (§4.1): the reference CRC-16/CCITT over a payload,
starting from a running value of 0. -/
def crc16CCITTRef (bytes : List Nat) : Nat := bytes.foldl crcRefByteStep 0

/-- Modelled from the spec (§4.1): big-endian (MSB, LSB) split of the
reference CRC, each half masked to 8 bits. -/
def crc16CCITTRefBytes (bytes : List Nat) : Nat × Nat :=
  (crc16CCITTRef bytes >>> 8 % 256, crc16CCITTRef bytes % 256)

/-! ### The serial command channel (`LNSM10.sendCommand`, devices.py 168-312)

The transport is modelled by an oracle `Nat → List Nat` giving the bytes
that are available to the i-th `ser.read` call of the exchange; a read
requesting `k` bytes returns at most `k` of them (`List.take`).  The trace
lists every transport side effect in order.  The fixed settle delays
(`time.sleep`) and the `io_lock` acquisition have no transport effect and
are not modelled.  Hex rendering is modelled at the byte level, which is
exact for command ids of two bytes and values below 256 (`"%0.2X"`). -/

/-- The frame `SYN ‖ cmd_id ‖ len ‖ data ‖ CRC_MSB ‖ CRC_LSB` built by
`LNSM10.sendCommand` (devices.py 213-220) after `binascii.unhexlify`. -/
def buildCommand (cmd_id : List Nat) (data_n_bytes : Nat) (data : List Nat) : List Nat :=
  let msbLsb := crc16 data
  0x16 :: cmd_id ++ [data_n_bytes] ++ data ++ [msbLsb.1, msbLsb.2]

/-- `LNSM10.checkResponse` (devices.py 1462-1483): compare the leading bytes
of the response with ACK (`0x06`) followed by the echoed command id.  The
Python code only logs on mismatch and never raises (for a bytes response),
so the model returns the comparison result. -/
def checkResponse (cmd_id : List Nat) (ans : List Nat) : Bool :=
  let expected := 0x06 :: cmd_id
  ans.take expected.length == expected

/-- The `while len(ans) < resp_nbytes` read-retry loop of `LNSM10.sendCommand`
(devices.py 250-272).  `remaining` stands for `5 - read_attempts`; the Python
counter starts at 0 and the retransmit branch runs when it reaches 5, so
`remaining` starts at 5 and the retransmit branch runs at 0 (the counter
never exceeds 5 because that branch always breaks or raises). -/
def readLoop (oracle : Nat → List Nat) (frame : List Nat) (resp : Nat)
    (ans : List Nat) (readIdx : Nat) (remaining : Nat) (trace : List IOEvent) :
    Except PyErr (List Nat) × Nat × List IOEvent :=
  if ans.length < resp then
    match remaining with
    | 0 =>
      let r := (oracle readIdx).take resp
      let trace' := trace ++ [IOEvent.write frame, IOEvent.read resp r]
      if r.length = resp then (Except.ok r, readIdx + 1, trace')
      else (Except.error PyErr.serialException, readIdx + 1, trace')
    | rem + 1 =>
      let r := (oracle readIdx).take (resp - ans.length)
      readLoop oracle frame resp (ans ++ r) (readIdx + 1) rem
        (trace ++ [IOEvent.read (resp - ans.length) r])
  else (Except.ok ans, readIdx, trace)

/-- The serial branch of `LNSM10.sendCommand` (devices.py 200-276, 312).

Control flow as in the source: compute the CRC, raise `IndexError` when the
declared byte count disagrees with the data length (before anything is
written), build and write the frame; with no expected response the code then
calls `self.clearBuffer()` — the staticmethod takes a `ser` argument, so
this call raises `TypeError` (and even if it did not, `checkResponse(cmd_id,
None)` on line 275-276 would subscript `None`); with an expected response it
reads, retries via `readLoop`, and on success clears the buffer, runs
`checkResponse` (log only) and returns the raw bytes. -/
def sendCommandSerial (oracle : Nat → List Nat) (cmd_id : List Nat)
    (data_n_bytes : Nat) (data : List Nat) (resp_nbytes : Nat) :
    Except PyErr (Option (List Nat)) × List IOEvent :=
  let _crc := crc16 data
  if data_n_bytes ≠ data.length then (Except.error PyErr.indexError, [])
  else
    let frame := buildCommand cmd_id data_n_bytes data
    if resp_nbytes = 0 then
      (Except.error PyErr.typeError, [IOEvent.write frame])
    else
      let first := (oracle 0).take resp_nbytes
      match readLoop oracle frame resp_nbytes first 1 5
          [IOEvent.write frame, IOEvent.read resp_nbytes first] with
      | (Except.ok ans, _, trace) =>
        let _checked := checkResponse cmd_id ans
        (Except.ok (some ans), trace ++ [IOEvent.clearBuffer])
      | (Except.error e, _, trace) => (Except.error e, trace)

/-- The dummy-connection branch of `LNSM10.sendCommand` (devices.py 200-220,
306-312): CRC and length check as for serial, then no I/O at all and `None`
is returned (the expected response size is ignored). -/
def sendCommandDummy (cmd_id : List Nat) (data_n_bytes : Nat) (data : List Nat)
    (_resp_nbytes : Nat) : Except PyErr (Option (List Nat)) :=
  let _crc := crc16 data
  if data_n_bytes ≠ data.length then Except.error PyErr.indexError
  else Except.ok none

/-- `LNSM10.setStepResolution` (devices.py 342-360) over the dummy
connection: assert `0 < resolution < 255`, then send command `"0146"` with
`nbytes = 1` but `data = [axis, resolution]` and `resp_nbytes = 4`. -/
def setStepResolutionDummy (axis resolution : Nat) : Except PyErr (Option (List Nat)) :=
  if ¬ (0 < resolution ∧ resolution < 255) then Except.error PyErr.assertionError
  else sendCommandDummy [0x01, 0x46] 1 [axis, resolution] 4

/-- `LNSM10.stepAxis` (devices.py 315-340) over the dummy connection:
assert `-127 < steps < 127`, call `setStepResolution`, then send command
`"0147"` with `nbytes = 1`, `data = [axis, steps + 127]`, `resp_nbytes = 4`.
A Python exception from the sub-command propagates. -/
def stepAxisDummy (axis : Nat) (steps : Int) (resolution : Nat) :
    Except PyErr (Option (List Nat)) :=
  if ¬ (-127 < steps ∧ steps < 127) then Except.error PyErr.assertionError
  else
    match setStepResolutionDummy axis resolution with
    | Except.error e => Except.error e
    | Except.ok _ =>
      let mapped_steps := (steps + 127).toNat
      sendCommandDummy [0x01, 0x47] 1 [axis, mapped_steps] 4

/-- `LNSM10.setMovementVelocity` (devices.py 475-499) over the serial
connection: assert `0 < velocity < 16` first; pick command `"0134"`
(fast) or `"0135"` (slow); with a speed mode other than 0 or 1 the Python
local `cmd_id` is never assigned and `UnboundLocalError` is raised at the
`sendCommand` call, still before any transport work. -/
def setMovementVelocity (oracle : Nat → List Nat) (axis speed_mode : Nat)
    (velocity : Int) : Except PyErr (Option (List Nat)) × List IOEvent :=
  if ¬ (0 < velocity ∧ velocity < 16) then (Except.error PyErr.assertionError, [])
  else if speed_mode = 1 then
    sendCommandSerial oracle [0x01, 0x34] 2 [axis, velocity.toNat] 4
  else if speed_mode = 0 then
    sendCommandSerial oracle [0x01, 0x35] 2 [axis, velocity.toNat] 4
  else (Except.error PyErr.unboundLocalError, [])

/-- `LNSM10.storePosition` (devices.py 638-657) over the serial connection:
assert `0 < slot_number ≤ 5` first, then send command `"010A"` with
`data = [axis, slot_number]`. -/
def storePosition (oracle : Nat → List Nat) (axis : Nat) (slot_number : Int) :
    Except PyErr (Option (List Nat)) × List IOEvent :=
  if ¬ (0 < slot_number ∧ slot_number ≤ 5) then (Except.error PyErr.assertionError, [])
  else sendCommandSerial oracle [0x01, 0x0A] 2 [axis, slot_number.toNat] 4

/-- `LNSM10.returnAxisHome` (devices.py 777-799) over the serial connection,
with the driver's `_homed` flag passed and returned explicitly: assert
`1 ≤ axis ≤ 3`; if `_homed` send command `"0022"` and only after it returns
set `_homed := False` (an exception from `sendCommand` propagates first and
leaves the flag untouched); otherwise only log a warning. -/
def returnAxisHome (oracle : Nat → List Nat) (homed : Bool) (axis : Nat) :
    Except PyErr Unit × Bool × List IOEvent :=
  if ¬ (1 ≤ axis ∧ axis ≤ 3) then (Except.error PyErr.assertionError, homed, [])
  else if homed then
    match sendCommandSerial oracle [0x00, 0x22] 1 [axis] 4 with
    | (Except.ok _, trace) => (Except.ok (), false, trace)
    | (Except.error e, trace) => (Except.error e, homed, trace)
  else (Except.ok (), homed, [])

/-! ### The manipulator.py revision (`LuigsAndNeumannSM10`) -/

/-- The frame built by `LuigsAndNeumannSM10.sendCommand` (manipulator.py
101-108); this revision uses `calculateCRC(data, len(data))`. -/
def luigsBuildCommand (cmd_id : List Nat) (data_n_bytes : Nat) (data : List Nat) :
    List Nat :=
  let msbLsb := calculateCRC data data.length
  0x16 :: cmd_id ++ [data_n_bytes] ++ data ++ [msbLsb.1, msbLsb.2]

/-- The read-retry loop of `LuigsAndNeumannSM10.sendCommand` (manipulator.py
138-151).  Same shape as `readLoop` except that the retransmission line is
commented out in this revision: after 5 attempts it only reads once more. -/
def luigsReadLoop (oracle : Nat → List Nat) (resp : Nat)
    (ans : List Nat) (readIdx : Nat) (remaining : Nat) (trace : List IOEvent) :
    Except PyErr (List Nat) × Nat × List IOEvent :=
  if ans.length < resp then
    match remaining with
    | 0 =>
      let r := (oracle readIdx).take resp
      let trace' := trace ++ [IOEvent.read resp r]
      if r.length = resp then (Except.ok r, readIdx + 1, trace')
      else (Except.error PyErr.serialException, readIdx + 1, trace')
    | rem + 1 =>
      let r := (oracle readIdx).take (resp - ans.length)
      luigsReadLoop oracle resp (ans ++ r) (readIdx + 1) rem
        (trace ++ [IOEvent.read (resp - ans.length) r])
  else (Except.ok ans, readIdx, trace)

/-- `LuigsAndNeumannSM10.sendCommand` (manipulator.py 89-157): same CRC and
length check, clean fire-and-forget path, and a strict response check that
raises `SerialException` on a prefix mismatch instead of logging. -/
def luigsSendCommand (oracle : Nat → List Nat) (cmd_id : List Nat)
    (data_n_bytes : Nat) (data : List Nat) (resp_nbytes : Nat) :
    Except PyErr (Option (List Nat)) × List IOEvent :=
  let _crc := calculateCRC data data.length
  if data_n_bytes ≠ data.length then (Except.error PyErr.indexError, [])
  else
    let frame := luigsBuildCommand cmd_id data_n_bytes data
    if resp_nbytes = 0 then (Except.ok none, [IOEvent.write frame])
    else
      let first := (oracle 0).take resp_nbytes
      match luigsReadLoop oracle resp_nbytes first 1 5
          [IOEvent.write frame, IOEvent.read resp_nbytes first] with
      | (Except.ok ans, _, trace) =>
        if ans.take (0x06 :: cmd_id).length == 0x06 :: cmd_id then
          (Except.ok (some ans), trace)
        else (Except.error PyErr.serialException, trace)
      | (Except.error e, _, trace) => (Except.error e, trace)

/-- `LuigsAndNeumannSM10.setMovementVelocity` (manipulator.py 298-319): this
revision asserts `velocity > 0 and velocity < 15` — strictly below 15. -/
def luigsSetMovementVelocity (oracle : Nat → List Nat) (axis speed_mode : Nat)
    (velocity : Int) : Except PyErr (Option (List Nat)) × List IOEvent :=
  if ¬ (0 < velocity ∧ velocity < 15) then (Except.error PyErr.assertionError, [])
  else if speed_mode = 1 then
    luigsSendCommand oracle [0x01, 0x34] 2 [axis, velocity.toNat] 4
  else if speed_mode = 0 then
    luigsSendCommand oracle [0x01, 0x35] 2 [axis, velocity.toNat] 4
  else (Except.error PyErr.unboundLocalError, [])

/-! ### Group-address encoders -/

/-- `LNSM10.calculateGroupAddress` (devices.py 1438-1460), the bit-packing
encoder: sub-byte weights `[1,2,4,8]` repeated 18 times, a 72-slot axis mask
(`ax_mask[ax-1] = 1`; valid for `1 ≤ ax ≤ 72`, as at every call site),
chunk sums of four, pairs added as `binsum[i+1] + binsum[i]`, reversed. -/
def calculateGroupAddress (axes : List Nat) : List Nat :=
  let SBs := (List.replicate 18 [1, 2, 4, 8]).join
  let ax_mask := axes.foldl (fun m ax => m.set (ax - 1) 1) (List.replicate 72 0)
  let binary := (List.range 72).map (fun i => SBs.getD i 0 * ax_mask.getD i 0)
  let binsum := (List.range 18).map (fun j => ((binary.drop (4 * j)).take 4).sum)
  let adr := (List.range 9).map (fun k => binsum.getD (2 * k + 1) 0 + binsum.getD (2 * k) 0)
  adr.reverse

/-- `LuigsAndNeumannSM10.XYZ` (manipulator.py line 33). -/
def XYZ : List Nat := [0, 0, 0, 0, 0, 0, 0, 0, 7]

/-- `LuigsAndNeumannSM10.YZ` (manipulator.py line 34). -/
def YZ : List Nat := [0, 0, 0, 0, 0, 0, 0, 0, 6]

/-- `LuigsAndNeumannSM10.XZ` (manipulator.py line 35). -/
def XZ : List Nat := [0, 0, 0, 0, 0, 0, 0, 0, 5]

/-- `LuigsAndNeumannSM10.XY` (manipulator.py line 36). -/
def XY : List Nat := [0, 0, 0, 0, 0, 0, 0, 0, 3]

/-- `LuigsAndNeumannSM10.getGroupAddress` (manipulator.py 1128-1141), the
lookup-table encoder keyed on membership of axes 1, 2, 3; the Python
function falls off the end (returns `None`) on any other combination. -/
def getGroupAddress (axes : List Nat) : Option (List Nat) :=
  if 1 ∈ axes ∧ 2 ∈ axes ∧ 3 ∈ axes then some [0, 0, 0, 0, 0, 0, 0, 0, 7]
  else if 1 ∈ axes ∧ 2 ∈ axes ∧ 3 ∉ axes then some [0, 0, 0, 0, 0, 0, 0, 0, 3]
  else if 1 ∈ axes ∧ 2 ∉ axes ∧ 3 ∈ axes then some [0, 0, 0, 0, 0, 0, 0, 0, 5]
  else if 1 ∉ axes ∧ 2 ∈ axes ∧ 3 ∈ axes then some [0, 0, 0, 0, 0, 0, 0, 0, 6]
  else none

/-! ### Congruence lemmas: the unmasked CRC loop agrees with the masked
reference modulo `2 ^ 16`. -/

/-- Masking the running value to 16 bits does not change bit 15. -/
theorem mod16_and_8000 (c : Nat) : c % 2 ^ 16 &&& 0x8000 = c &&& 0x8000 := by
  apply Nat.eq_of_testBit_eq
  intro i
  have h : (0x8000 : Nat) = 2 ^ 15 := by norm_num
  rw [h]
  simp only [Nat.testBit_and, Nat.testBit_mod_two_pow, Nat.testBit_two_pow]
  by_cases h15 : 15 = i
  · subst h15; simp
  · simp [h15]

/-- XOR only mixes low 16 bits into low 16 bits. -/
theorem xor_mod16_congr (a b p : Nat) (h : a % 2 ^ 16 = b % 2 ^ 16) :
    (a ^^^ p) % 2 ^ 16 = (b ^^^ p) % 2 ^ 16 := by
  apply Nat.eq_of_testBit_eq
  intro i
  simp only [Nat.testBit_mod_two_pow, Nat.testBit_xor]
  by_cases hi : i < 16
  · have ha := congrArg (fun x => x.testBit i) h
    simp only [Nat.testBit_mod_two_pow, decide_eq_true hi, Bool.true_and] at ha
    rw [ha]
  · simp [decide_eq_false hi]

/-- The left shift by one only moves low 16 bits into low 16 bits. -/
theorem shiftLeft_one_mod16_congr (a b : Nat) (h : a % 2 ^ 16 = b % 2 ^ 16) :
    a <<< 1 % 2 ^ 16 = b <<< 1 % 2 ^ 16 := by
  rw [Nat.shiftLeft_eq, Nat.shiftLeft_eq, pow_one,
    ← Nat.mod_mul_mod, h, Nat.mod_mul_mod]

/-- One unmasked shift step agrees with the masked reference step mod `2 ^ 16`. -/
theorem crcShiftStep_mod (c : Nat) :
    crcShiftStep c % 2 ^ 16 = crcRefShiftStep (c % 2 ^ 16) := by
  unfold crcShiftStep crcRefShiftStep
  rw [mod16_and_8000]
  have hc : c % 2 ^ 16 % 2 ^ 16 = c % 2 ^ 16 := Nat.mod_mod_of_dvd c dvd_rfl
  by_cases h : c &&& 0x8000 ≠ 0
  · rw [if_pos h, if_pos h]
    exact xor_mod16_congr _ _ _ (shiftLeft_one_mod16_congr c (c % 2 ^ 16) hc.symm)
  · rw [if_neg h, if_neg h]
    exact shiftLeft_one_mod16_congr c (c % 2 ^ 16) hc.symm

/-- Iterating the unmasked step agrees with iterating the masked step. -/
theorem crcShiftStep_iterate_mod (k : Nat) :
    ∀ c, crcShiftStep^[k] c % 2 ^ 16 = crcRefShiftStep^[k] (c % 2 ^ 16) := by
  induction k with
  | zero => intro c; simp
  | succ n ih =>
    intro c
    rw [Function.iterate_succ_apply, Function.iterate_succ_apply, ih (crcShiftStep c),
      crcShiftStep_mod]

/-- The unmasked per-byte step agrees with the masked reference per-byte step. -/
theorem crcByteStep_mod (c b : Nat) :
    crcByteStep c b % 2 ^ 16 = crcRefByteStep (c % 2 ^ 16) b := by
  unfold crcByteStep crcRefByteStep
  rw [crcShiftStep_iterate_mod]
  congr 1
  exact (xor_mod16_congr (c % 2 ^ 16) c (b <<< 8)
    (Nat.mod_mod_of_dvd c dvd_rfl)).symm

/-- The whole unmasked fold agrees with the masked reference fold mod `2 ^ 16`. -/
theorem calculateCRCAux_mod (bytes : List Nat) :
    ∀ c, calculateCRCAux c bytes % 2 ^ 16 = bytes.foldl crcRefByteStep (c % 2 ^ 16) := by
  induction bytes with
  | nil =>
    intro c
    unfold calculateCRCAux
    simp [Nat.mod_mod_of_dvd c dvd_rfl]
  | cons b t ih =>
    intro c
    unfold calculateCRCAux at ih ⊢
    simp only [List.foldl_cons]
    rw [ih (crcByteStep c b), crcByteStep_mod]

/-- The high byte of a value is determined by the value mod `2 ^ 16`. -/
theorem shiftRight8_mod (x : Nat) : x >>> 8 % 256 = (x % 2 ^ 16) >>> 8 % 256 := by
  rw [Nat.shiftRight_eq_div_pow, Nat.shiftRight_eq_div_pow]
  have h256 : (256 : Nat) = 2 ^ 8 := by norm_num
  rw [h256, Nat.div_mod_eq_mod_mul_div, Nat.div_mod_eq_mod_mul_div]
  have h16 : 2 ^ 8 * 2 ^ 8 = 2 ^ 16 := by norm_num
  rw [h16, Nat.mod_mod_of_dvd x dvd_rfl]

/-- C1.  The byte-folding checksum `calculateCRC` in manipulator.py, called as
the source calls it with `length = len(data_bytes)`, returns exactly the
big-endian (MSB, LSB) split of the reference CRC-16/CCITT (polynomial
`0x1021`, initial value 0, byte XOR-ed into the high byte before 8
XOR-conditional left shifts, 16-bit running value), each half masked to
8 bits — even though the implementation never masks its running value
inside the loop. -/
theorem calculateCRC_eq_ccitt_reference (data : List Nat) :
    calculateCRC data data.length = crc16CCITTRefBytes data := by
  unfold calculateCRC crc16CCITTRefBytes crc16CCITTRef
  rw [List.take_length]
  have h : calculateCRCAux 0 data % 2 ^ 16 = data.foldl crcRefByteStep 0 := by
    simpa using calculateCRCAux_mod data 0
  simp only [Prod.mk.injEq]
  refine ⟨?_, ?_⟩
  · rw [shiftRight8_mod (calculateCRCAux 0 data), h]
  · rw [← Nat.mod_mod_of_dvd (calculateCRCAux 0 data)
      (by norm_num : (256 : Nat) ∣ 2 ^ 16), h]

/-! ### C2: the devices.py checksum depends only on the payload length -/

/-- The fold in `crc16` ignores the list elements, so it is an iteration of
its step function, `length`-many times. -/
theorem crc16_foldl_eq_iterate (l : List Nat) :
    ∀ c, l.foldl (fun acc _ => (acc <<< 8 ^^^ 0x1021) &&& 0xFFFF) c =
      (fun acc => (acc <<< 8 ^^^ 0x1021) &&& 0xFFFF)^[l.length] c := by
  induction l with
  | nil => intro c; rfl
  | cons x t ih =>
    intro c
    simp only [List.foldl_cons, List.length_cons, Function.iterate_succ_apply]
    exact ih _

/-- C2.  The later checksum routine `crc16` in devices.py ignores payload
content: its loop body shifts in the polynomial without ever XOR-ing in the
byte, so for every two payloads of equal length the (MSB, LSB) result is
identical — it is a function of the payload length alone. -/
theorem crc16_depends_only_on_length (a b : List Nat) (h : a.length = b.length) :
    crc16 a = crc16 b := by
  simp only [crc16]
  rw [crc16_foldl_eq_iterate a 0xFFFF, crc16_foldl_eq_iterate b 0xFFFF, h]

/-- Witness for C2: two different equal-length payloads, one checksum. -/
theorem crc16_depends_only_on_length_witness : crc16 [1, 2] = crc16 [200, 200] :=
  crc16_depends_only_on_length [1, 2] [200, 200] rfl

/-- C6.  The bit-packing encoder `calculateGroupAddress` applied to the four
canonical axis lists returns exactly the lookup-table constants `XYZ`, `XY`,
`YZ`, `XZ` of manipulator.py, and therefore agrees with the lookup-table
encoder `getGroupAddress` on those four inputs. -/
theorem calculateGroupAddress_agrees_with_lookup :
    calculateGroupAddress [1, 2, 3] = XYZ ∧ calculateGroupAddress [1, 2] = XY ∧
    calculateGroupAddress [2, 3] = YZ ∧ calculateGroupAddress [1, 3] = XZ ∧
    getGroupAddress [1, 2, 3] = some (calculateGroupAddress [1, 2, 3]) ∧
    getGroupAddress [1, 2] = some (calculateGroupAddress [1, 2]) ∧
    getGroupAddress [2, 3] = some (calculateGroupAddress [2, 3]) ∧
    getGroupAddress [1, 3] = some (calculateGroupAddress [1, 3]) := by
  refine ⟨rfl, rfl, rfl, rfl, rfl, rfl, rfl, rfl⟩

/-- C7.  The end-to-end step scenario `stepAxis(axis=1, steps=5,
resolution=10)` over the dummy connection does not complete: the first
sub-command, `setStepResolution`, declares `nbytes = 1` for the two data
bytes `[axis, resolution]`, so `sendCommand` raises `IndexError` before any
command is issued (the step command `"0147"` carries the same mismatch, and
both sub-commands pass `resp_nbytes = 4`, not 0). -/
theorem stepAxis_dummy_scenario_raises :
    stepAxisDummy 1 5 10 = Except.error PyErr.indexError := rfl

/-! ### C5: the serial fire-and-forget path -/

/-- C5.  Though intended to write the frame, clear the buffers and return
`None`, the serial fire-and-forget path of `sendCommand`
(`expectedResponseBytes == 0`) raises `TypeError` right after writing the
frame: `self.clearBuffer()` on devices.py line 235 calls the staticmethod
without its `ser` argument (and the unconditional `checkResponse(cmd_id,
ans)` on lines 275-276 would subscript `ans = None` even if it did not). -/
theorem fire_and_forget_raises_typeError (oracle : Nat → List Nat) (cmd_id : List Nat)
    (n : Nat) (data : List Nat) (h : n = data.length)
    (hbytes : ∀ x ∈ data, x ≤ 255) (hlen : data.length ≤ 255) :
    sendCommandSerial oracle cmd_id n data 0 =
      (Except.error PyErr.typeError, [IOEvent.write (buildCommand cmd_id n data)]) := by
  simp only [sendCommandSerial]
  rw [if_neg (fun hc => hc h), if_pos trivial]

/-- Witness for C5: the well-formed `setStepVelocity`-style frame
(`"0158"`, two data bytes, no expected response) raises `TypeError`. -/
theorem fire_and_forget_raises_typeError_witness :
    sendCommandSerial (fun _ => []) [0x01, 0x58] 2 [1, 5] 0 =
      (Except.error PyErr.typeError, [IOEvent.write (buildCommand [0x01, 0x58] 2 [1, 5])]) :=
  fire_and_forget_raises_typeError (fun _ => []) [0x01, 0x58] 2 [1, 5] rfl
    (by decide) (by decide)

/-! ### C4: the retry bound on a transport that returns nothing -/

/-- On a transport that always returns zero bytes, the read-retry loop
starting with an empty accumulator performs `rem` accumulate reads, then
retransmits the frame, reads once more, and fails. -/
theorem readLoop_empty_oracle (oracle : Nat → List Nat) (frame : List Nat) (resp : Nat)
    (hresp : 0 < resp) (hempty : ∀ i, oracle i = []) :
    ∀ (rem readIdx : Nat) (trace : List IOEvent),
      readLoop oracle frame resp [] readIdx rem trace =
        (Except.error PyErr.serialException, readIdx + rem + 1,
         trace ++ List.replicate rem (IOEvent.read resp []) ++
           [IOEvent.write frame, IOEvent.read resp []]) := by
  intro rem
  induction rem with
  | zero =>
    intro readIdx trace
    simp only [readLoop, hempty, List.take_nil, List.length_nil, hresp, if_true,
      List.replicate_zero, List.append_nil]
    rw [if_neg (by omega)]
  | succ k ih =>
    intro readIdx trace
    simp only [readLoop, hempty, List.take_nil, List.length_nil, hresp, if_true,
      List.append_nil, Nat.sub_zero]
    rw [ih (readIdx + 1)]
    simp only [List.replicate_succ, List.append_assoc, List.cons_append,
      List.nil_append]
    have harith : readIdx + 1 + k + 1 = readIdx + (k + 1) + 1 := by omega
    rw [harith]

/-- C4.  Over a serial transport that always returns zero bytes, a
well-formed `sendCommand` with a positive expected response size fails with
`SerialException` after exactly this transport trace: the frame write, the
initial read, exactly 5 retry reads (the `read_attempts` counter of the
source), one retransmission of the original frame, and one final read —
7 reads and 2 writes in total, no more and no fewer. -/
theorem sendCommand_retry_bound (oracle : Nat → List Nat) (cmd_id : List Nat)
    (n : Nat) (data : List Nat) (resp : Nat)
    (hn : n = data.length) (hbytes : ∀ x ∈ data, x ≤ 255) (hlen : data.length ≤ 255)
    (hresp : 0 < resp) (hempty : ∀ i, oracle i = []) :
    sendCommandSerial oracle cmd_id n data resp =
      (Except.error PyErr.serialException,
       [IOEvent.write (buildCommand cmd_id n data), IOEvent.read resp [],
        IOEvent.read resp [], IOEvent.read resp [], IOEvent.read resp [],
        IOEvent.read resp [], IOEvent.read resp [],
        IOEvent.write (buildCommand cmd_id n data), IOEvent.read resp []]) := by
  simp only [sendCommandSerial]
  rw [if_neg (fun hc => hc hn), if_neg (by omega), hempty 0]
  simp only [List.take_nil]
  rw [readLoop_empty_oracle oracle _ resp hresp hempty 5 1]
  rfl

/-- Witness for C4: a concrete well-formed command against the
always-empty transport. -/
theorem sendCommand_retry_bound_witness :
    sendCommandSerial (fun _ => []) [0x01, 0x46] 2 [1, 10] 4 =
      (Except.error PyErr.serialException,
       [IOEvent.write (buildCommand [0x01, 0x46] 2 [1, 10]), IOEvent.read 4 [],
        IOEvent.read 4 [], IOEvent.read 4 [], IOEvent.read 4 [],
        IOEvent.read 4 [], IOEvent.read 4 [],
        IOEvent.write (buildCommand [0x01, 0x46] 2 [1, 10]), IOEvent.read 4 []]) :=
  sendCommand_retry_bound (fun _ => []) [0x01, 0x46] 2 [1, 10] 4 rfl
    (by decide) (by decide) (by omega) (fun _ => rfl)

/-! ### C8: permissive response validation -/

/-- C8.  When a complete response arrives whose leading bytes differ from
ACK (`0x06`) followed by the echoed command id, `checkResponse` reports the
mismatch (returns the failed comparison, which the source merely logs) and
does not raise, and `sendCommand` still returns the raw response bytes to
the caller. -/
theorem response_mismatch_is_permissive (oracle : Nat → List Nat) (cmd_id : List Nat)
    (n : Nat) (data r : List Nat) (resp : Nat)
    (hn : n = data.length) (hbytes : ∀ x ∈ data, x ≤ 255)
    (hdlen : data.length ≤ 255) (hresp : 0 < resp) (hr : oracle 0 = r)
    (hlen : r.length = resp)
    (hmism : r.take (0x06 :: cmd_id).length ≠ 0x06 :: cmd_id) :
    checkResponse cmd_id r = false ∧
    sendCommandSerial oracle cmd_id n data resp =
      (Except.ok (some r),
       [IOEvent.write (buildCommand cmd_id n data), IOEvent.read resp r,
        IOEvent.clearBuffer]) := by
  constructor
  · simp only [checkResponse]
    exact beq_eq_false_iff_ne.mpr hmism
  · simp only [sendCommandSerial]
    rw [if_neg (fun hc => hc hn), if_neg (by omega), hr, ← hlen, List.take_length]
    simp only [readLoop, hlen, lt_irrefl, if_false]
    rfl

/-- Witness for C8: a full-length 4-byte response whose prefix is not
`06 01 46` is still returned to the caller. -/
theorem response_mismatch_is_permissive_witness :
    checkResponse [0x01, 0x46] [9, 9, 9, 9] = false ∧
    sendCommandSerial (fun _ => [9, 9, 9, 9]) [0x01, 0x46] 2 [1, 10] 4 =
      (Except.ok (some [9, 9, 9, 9]),
       [IOEvent.write (buildCommand [0x01, 0x46] 2 [1, 10]),
        IOEvent.read 4 [9, 9, 9, 9], IOEvent.clearBuffer]) :=
  response_mismatch_is_permissive (fun _ => [9, 9, 9, 9]) [0x01, 0x46] 2 [1, 10]
    [9, 9, 9, 9] 4 rfl (by decide) (by decide) (by omega) rfl rfl (by decide)

/-! ### C3: the frame-length guard -/

/-- The read-retry loop can only fail with `SerialException`. -/
theorem readLoop_error_eq_serialException (oracle : Nat → List Nat) (frame : List Nat)
    (resp : Nat) :
    ∀ (remaining : Nat) (ans : List Nat) (readIdx : Nat) (trace : List IOEvent)
      (e : PyErr),
      (readLoop oracle frame resp ans readIdx remaining trace).1 = Except.error e →
      e = PyErr.serialException := by
  intro remaining
  induction remaining with
  | zero =>
    intro ans readIdx trace e h
    simp only [readLoop] at h
    split at h
    · split at h
      · simp at h
      · simp at h
        exact h.symm
    · simp at h
  | succ k ih =>
    intro ans readIdx trace e h
    simp only [readLoop] at h
    split at h
    · exact ih _ _ _ _ h
    · simp at h

/-- The serial `sendCommand` can only fail with `IndexError` (length
mismatch), `TypeError` (the fire-and-forget `clearBuffer()` slip) or
`SerialException` (incomplete response). -/
theorem sendCommandSerial_error_classes (oracle : Nat → List Nat) (cmd_id : List Nat)
    (n : Nat) (data : List Nat) (resp : Nat) (e : PyErr)
    (h : (sendCommandSerial oracle cmd_id n data resp).1 = Except.error e) :
    e = PyErr.indexError ∨ e = PyErr.typeError ∨ e = PyErr.serialException := by
  simp only [sendCommandSerial] at h
  split at h
  · simp at h
    exact Or.inl h.symm
  · split at h
    · simp at h
      exact Or.inr (Or.inl h.symm)
    · split at h
      · simp at h
      · simp at h
        rename_i e' heq
        rw [h] at heq
        exact Or.inr (Or.inr (readLoop_error_eq_serialException oracle _ resp 5 _ 1 _ e
          (by rw [heq])))

/-- C3.  For every command id, declared byte count `n`, payload of bytes in
`[0, 255]` and expected response size, the serial `sendCommand` raises the
length-mismatch `IndexError` if and only if `n ≠ len(data)`; and when it
raises it, nothing has been written to the transport (the trace is empty:
the guard runs before the frame is built or written). -/
theorem sendCommand_length_guard (oracle : Nat → List Nat) (cmd_id : List Nat)
    (n : Nat) (data : List Nat) (resp : Nat) (hbytes : ∀ x ∈ data, x ≤ 255) :
    ((sendCommandSerial oracle cmd_id n data resp).1 = Except.error PyErr.indexError
        ↔ n ≠ data.length) ∧
    (n ≠ data.length →
      sendCommandSerial oracle cmd_id n data resp = (Except.error PyErr.indexError, [])) := by
  have hne : ∀ _ : n ≠ data.length,
      sendCommandSerial oracle cmd_id n data resp = (Except.error PyErr.indexError, []) := by
    intro hne
    simp only [sendCommandSerial]
    rw [if_pos hne]
  refine ⟨⟨?_, fun hn => by rw [hne hn]⟩, hne⟩
  intro h
  by_cases hn : n = data.length
  · exfalso
    simp only [sendCommandSerial] at h
    rw [if_neg (fun hc => hc hn)] at h
    split at h
    · simp at h
    · split at h
      · simp at h
      · simp at h
        rename_i e' heq
        rw [h] at heq
        have := readLoop_error_eq_serialException oracle _ resp 5 _ 1 _ PyErr.indexError
          (by rw [heq])
        exact PyErr.noConfusion this
  · exact hn

/-- Witness for C3: with a declared count of 1 against two data bytes the
call fails with `IndexError` and writes nothing. -/
theorem sendCommand_length_guard_witness :
    ((sendCommandSerial (fun _ => []) [0x01, 0x46] 1 [1, 10] 4).1 =
        Except.error PyErr.indexError ↔ (1 : Nat) ≠ [1, 10].length) ∧
    ((1 : Nat) ≠ [1, 10].length →
      sendCommandSerial (fun _ => []) [0x01, 0x46] 1 [1, 10] 4 =
        (Except.error PyErr.indexError, [])) :=
  sendCommand_length_guard (fun _ => []) [0x01, 0x46] 1 [1, 10] 4 (by decide)

/-! ### C9: argument-range gates -/

/-- The manipulator.py read-retry loop can only fail with `SerialException`. -/
theorem luigsReadLoop_error_eq_serialException (oracle : Nat → List Nat) (resp : Nat) :
    ∀ (remaining : Nat) (ans : List Nat) (readIdx : Nat) (trace : List IOEvent)
      (e : PyErr),
      (luigsReadLoop oracle resp ans readIdx remaining trace).1 = Except.error e →
      e = PyErr.serialException := by
  intro remaining
  induction remaining with
  | zero =>
    intro ans readIdx trace e h
    simp only [luigsReadLoop] at h
    split at h
    · split at h
      · simp at h
      · simp at h
        exact h.symm
    · simp at h
  | succ k ih =>
    intro ans readIdx trace e h
    simp only [luigsReadLoop] at h
    split at h
    · exact ih _ _ _ _ h
    · simp at h

/-- `LuigsAndNeumannSM10.sendCommand` can only fail with `IndexError` or
`SerialException`. -/
theorem luigsSendCommand_error_classes (oracle : Nat → List Nat) (cmd_id : List Nat)
    (n : Nat) (data : List Nat) (resp : Nat) (e : PyErr)
    (h : (luigsSendCommand oracle cmd_id n data resp).1 = Except.error e) :
    e = PyErr.indexError ∨ e = PyErr.serialException := by
  simp only [luigsSendCommand] at h
  split at h
  · simp at h
    exact Or.inl h.symm
  · split at h
    · simp at h
    · split at h
      · split at h
        · simp at h
        · simp at h
          exact Or.inr h.symm
      · simp at h
        rename_i e' heq
        rw [h] at heq
        exact Or.inr (luigsReadLoop_error_eq_serialException oracle resp 5 _ 1 _ e
          (by rw [heq]))

/-- C9 (amended).  The argument-range gates, before any encoding or
transport work (empty trace):  devices.py `setMovementVelocity` raises
`AssertionError` exactly when the velocity is outside `1..15` (strictly
between 0 and 16); devices.py `storePosition` raises exactly when the slot
is outside `[1, 5]`; and the manipulator.py revision of
`setMovementVelocity` asserts `velocity < 15`, so it raises exactly when
the velocity is outside `1..14` — rejecting velocity 15 as well. -/
theorem velocity_and_slot_gates :
    (∀ (oracle : Nat → List Nat) (axis speed_mode : Nat) (v : Int),
        ((setMovementVelocity oracle axis speed_mode v).1 =
            Except.error PyErr.assertionError ↔ ¬ (0 < v ∧ v < 16)) ∧
        (¬ (0 < v ∧ v < 16) →
          setMovementVelocity oracle axis speed_mode v =
            (Except.error PyErr.assertionError, []))) ∧
    (∀ (oracle : Nat → List Nat) (axis : Nat) (slot : Int),
        ((storePosition oracle axis slot).1 = Except.error PyErr.assertionError ↔
          ¬ (0 < slot ∧ slot ≤ 5)) ∧
        (¬ (0 < slot ∧ slot ≤ 5) →
          storePosition oracle axis slot = (Except.error PyErr.assertionError, []))) ∧
    (∀ (oracle : Nat → List Nat) (axis speed_mode : Nat) (v : Int),
        ((luigsSetMovementVelocity oracle axis speed_mode v).1 =
            Except.error PyErr.assertionError ↔ ¬ (0 < v ∧ v < 15)) ∧
        (¬ (0 < v ∧ v < 15) →
          luigsSetMovementVelocity oracle axis speed_mode v =
            (Except.error PyErr.assertionError, []))) := by
  refine ⟨fun oracle axis sm v => ?_, fun oracle axis slot => ?_,
    fun oracle axis sm v => ?_⟩
  · by_cases hv : 0 < v ∧ v < 16
    · refine ⟨⟨fun h => absurd ?_ (not_not.mpr hv), fun h => absurd hv h⟩,
        fun h => absurd hv h⟩
      exfalso
      simp only [setMovementVelocity] at h
      rw [if_neg (not_not.mpr hv)] at h
      by_cases h1 : sm = 1
      · rw [if_pos h1] at h
        rcases sendCommandSerial_error_classes _ _ _ _ _ _ h with h' | h' | h' <;>
          exact PyErr.noConfusion h'
      · rw [if_neg h1] at h
        by_cases h0 : sm = 0
        · rw [if_pos h0] at h
          rcases sendCommandSerial_error_classes _ _ _ _ _ _ h with h' | h' | h' <;>
            exact PyErr.noConfusion h'
        · rw [if_neg h0] at h
          simp at h
    · have heq : setMovementVelocity oracle axis sm v =
          (Except.error PyErr.assertionError, []) := by
        simp only [setMovementVelocity]
        rw [if_pos hv]
      exact ⟨⟨fun _ => hv, fun _ => by rw [heq]⟩, fun _ => heq⟩
  · by_cases hs : 0 < slot ∧ slot ≤ 5
    · refine ⟨⟨fun h => ?_, fun h => absurd hs h⟩, fun h => absurd hs h⟩
      exfalso
      simp only [storePosition] at h
      rw [if_neg (not_not.mpr hs)] at h
      rcases sendCommandSerial_error_classes _ _ _ _ _ _ h with h' | h' | h' <;>
        exact PyErr.noConfusion h'
    · have heq : storePosition oracle axis slot =
          (Except.error PyErr.assertionError, []) := by
        simp only [storePosition]
        rw [if_pos hs]
      exact ⟨⟨fun _ => hs, fun _ => by rw [heq]⟩, fun _ => heq⟩
  · by_cases hv : 0 < v ∧ v < 15
    · refine ⟨⟨fun h => ?_, fun h => absurd hv h⟩, fun h => absurd hv h⟩
      exfalso
      simp only [luigsSetMovementVelocity] at h
      rw [if_neg (not_not.mpr hv)] at h
      by_cases h1 : sm = 1
      · rw [if_pos h1] at h
        rcases luigsSendCommand_error_classes _ _ _ _ _ _ h with h' | h' <;>
          exact PyErr.noConfusion h'
      · rw [if_neg h1] at h
        by_cases h0 : sm = 0
        · rw [if_pos h0] at h
          rcases luigsSendCommand_error_classes _ _ _ _ _ _ h with h' | h' <;>
            exact PyErr.noConfusion h'
        · rw [if_neg h0] at h
          simp at h
    · have heq : luigsSetMovementVelocity oracle axis sm v =
          (Except.error PyErr.assertionError, []) := by
        simp only [luigsSetMovementVelocity]
        rw [if_pos hv]
      exact ⟨⟨fun _ => hv, fun _ => by rw [heq]⟩, fun _ => heq⟩

/-- Counterexample for C9 as stated: velocity 15 is strictly between 0 and
16, yet the manipulator.py revision of the set-movement-velocity operation
(one of the claim's two cited code places) rejects it with
`AssertionError` before any work, because its guard is `velocity < 15`. -/
theorem luigs_velocity_15_rejected :
    luigsSetMovementVelocity (fun _ => []) 1 1 15 =
      (Except.error PyErr.assertionError, []) ∧
    ((0 : Int) < 15 ∧ (15 : Int) < 16) := by
  refine ⟨?_, by decide⟩
  simp only [luigsSetMovementVelocity]
  rw [if_pos (by decide)]

/-- Witness for C9 (amended): each gate rejecting a concrete out-of-range
argument with an empty trace. -/
theorem velocity_and_slot_gates_witness :
    setMovementVelocity (fun _ => []) 1 1 16 = (Except.error PyErr.assertionError, []) ∧
    storePosition (fun _ => []) 1 6 = (Except.error PyErr.assertionError, []) ∧
    luigsSetMovementVelocity (fun _ => []) 1 1 0 =
      (Except.error PyErr.assertionError, []) :=
  ⟨(velocity_and_slot_gates.1 (fun _ => []) 1 1 16).2 (by decide),
   (velocity_and_slot_gates.2.1 (fun _ => []) 1 6).2 (by decide),
   (velocity_and_slot_gates.2.2 (fun _ => []) 1 1 0).2 (by decide)⟩

/-! ### C10: the return-home send guard -/

/-- Counterexample for C10 as stated: starting from `_homed = True` (the
state `moveAxesHome` establishes) with a transport that returns no bytes,
`returnAxisHome(1)` writes the return-home frame `"0022"` twice (the
original send and the retry retransmission), the `SerialException`
propagates before devices.py line 795 runs, and `_homed` is still `True`
afterwards — so a write does not always reset the flag, and more than one
return-home command can be sent. -/
theorem returnAxisHome_write_without_reset :
    (returnAxisHome (fun _ => []) true 1).2.1 = true ∧
    (returnAxisHome (fun _ => []) true 1).1 = Except.error PyErr.serialException ∧
    (returnAxisHome (fun _ => []) true 1).2.2.countP
      (fun e => match e with | IOEvent.write _ => true | _ => false) = 2 := by
  refine ⟨rfl, rfl, rfl⟩

/-- C10 (amended).  The guard behaviour of `returnAxisHome` that does hold:
(1) a call made while `_homed` is `False` performs no transport work and
leaves the flag `False` (so the command is only ever written when `_homed`
is `True`); (2) every call that returns without raising leaves `_homed`
`False`; (3) hence from a freshly constructed driver (`_homed = False`),
two consecutive `returnAxisHome` calls with no intervening operation that
sets `_homed` send nothing at all.  (When the response read raises, however,
the flag stays `True` — see the counterexample.) -/
theorem returnAxisHome_guard_behavior :
    (∀ (oracle : Nat → List Nat) (axis : Nat),
        (returnAxisHome oracle false axis).2.1 = false ∧
        (returnAxisHome oracle false axis).2.2 = []) ∧
    (∀ (oracle : Nat → List Nat) (homed : Bool) (axis : Nat),
        (returnAxisHome oracle homed axis).1 = Except.ok () →
        (returnAxisHome oracle homed axis).2.1 = false) ∧
    (∀ (oracle₁ oracle₂ : Nat → List Nat) (axis₁ axis₂ : Nat),
        (returnAxisHome oracle₁ false axis₁).2.2 = [] ∧
        (returnAxisHome oracle₂ ((returnAxisHome oracle₁ false axis₁).2.1)
          axis₂).2.2 = []) := by
  have hfalse : ∀ (oracle : Nat → List Nat) (axis : Nat),
      (returnAxisHome oracle false axis).2.1 = false ∧
      (returnAxisHome oracle false axis).2.2 = [] := by
    intro oracle axis
    by_cases hax : 1 ≤ axis ∧ axis ≤ 3
    · simp only [returnAxisHome]
      rw [if_neg (not_not.mpr hax), if_neg (by decide : ¬ (false = true))]
      exact ⟨rfl, rfl⟩
    · simp only [returnAxisHome]
      rw [if_pos hax]
      exact ⟨rfl, rfl⟩
  refine ⟨hfalse, fun oracle homed axis h => ?_, fun o₁ o₂ a₁ a₂ => ?_⟩
  · cases homed with
    | false => exact (hfalse oracle axis).1
    | true =>
      by_cases hax : 1 ≤ axis ∧ axis ≤ 3
      · simp only [returnAxisHome] at h ⊢
        rw [if_neg (not_not.mpr hax), if_pos trivial] at h ⊢
        split at h
        · rfl
        · simp at h
      · simp only [returnAxisHome] at h
        rw [if_pos hax] at h
        simp at h
  · refine ⟨(hfalse o₁ a₁).2, ?_⟩
    rw [(hfalse o₁ a₁).1]
    exact (hfalse o₂ a₂).2

/-- Witness for C10 (amended): a call that completes (full 4-byte response
on the first read) resets `_homed` to `False`. -/
theorem returnAxisHome_guard_behavior_witness :
    (returnAxisHome (fun _ => [0x06, 0x00, 0x22, 0x00]) true 1).2.1 = false :=
  returnAxisHome_guard_behavior.2.1 (fun _ => [0x06, 0x00, 0x22, 0x00]) true 1 rfl
